import Mathlib

/-!
Verification of the Trigger / Event-Source / Action dispatch engine
(zenml): a shallow embedding of the trigger validation models
(`src/zenml/models/v2/core/trigger.py`), the internal scheduler event
source (`src/zenml/scheduler/scheduler_event_source.py`) and the plugin
flavor descriptors (`src/zenml/plugins/base_plugin_flavor.py`), together
with theorems about the specified properties.
-/

/-- Modelled from the spec: `zenml.constants.STR_FIELD_MAX_LENGTH` is not
under `src/`; the trigger models bound their string fields by this fixed
constant, whose concrete value (255 in the constants module) does not
affect any property below. -/
def STR_FIELD_MAX_LENGTH : Nat := 255

/-- Modelled from the spec: `zenml.config.schedule.Schedule` is not under
`src/`; the spec describes a schedule as a cron expression plus optional
start/end bounds. -/
structure Schedule where
  cron_expression : String
  start_time : Option Nat := none
  end_time : Option Nat := none
deriving DecidableEq

/-- Embedding of `TriggerRequest` (trigger.py, lines 47-97): the pydantic
model for creating a new trigger.  `UUID` values are modelled as `Nat`;
the `Dict[str, Any]` event filter payload as an association list. -/
structure TriggerRequest where
  name : String
  description : String := ""
  action_id : Nat
  schedule : Option Schedule := none
  event_source_id : Option Nat := none
  event_filter : Option (List (String × String)) := none
deriving DecidableEq

/-- Whether an `Except` result is a success: validation accepted the
payload (no `ValidationError`). -/
def exceptOk {ε α : Type} (x : Except ε α) : Bool :=
  match x with
  | Except.ok _ => true
  | Except.error _ => false

/-- Embedding of the root validator
`TriggerRequest._validate_schedule_or_event_source` (trigger.py, lines
77-97).  Python truthiness of the optional `Schedule` object and `UUID`
coincides with `Option.isSome` (neither type defines `__bool__`). -/
def validate_schedule_or_event_source (values : TriggerRequest) :
    Except String TriggerRequest :=
  if !values.schedule.isSome && !values.event_source_id.isSome then
    Except.error "Either a schedule or an event source is required."
  else if values.schedule.isSome && values.event_source_id.isSome then
    Except.error "Only a schedule or an event source is allowed."
  else
    Except.ok values

/-- Full pydantic validation of a `TriggerRequest`: the declared field
constraints (`max_length=STR_FIELD_MAX_LENGTH` on `name` and
`description`, trigger.py lines 50-57) followed by the root validator. -/
def validateTriggerRequest (r : TriggerRequest) :
    Except String TriggerRequest :=
  if STR_FIELD_MAX_LENGTH < r.name.length then
    Except.error "name: ensure this value has at most 255 characters"
  else if STR_FIELD_MAX_LENGTH < r.description.length then
    Except.error "description: ensure this value has at most 255 characters"
  else
    validate_schedule_or_event_source r

/-- Embedding of `TriggerUpdate` (trigger.py, lines 104-131): the pydantic
update model.  All fields are optional; the model declares no root
validator. -/
structure TriggerUpdate where
  name : Option String := none
  description : Option String := none
  event_filter : Option (List (String × String)) := none
  schedule : Option Schedule := none
  is_active : Option Bool := none
deriving DecidableEq

/-- Length bound on an optional string field: pydantic applies
`max_length` only when the value is set. -/
def optLenOk (s : Option String) : Bool :=
  match s with
  | none => true
  | some v => decide (v.length ≤ STR_FIELD_MAX_LENGTH)

/-- Full pydantic validation of a `TriggerUpdate`: only the declared field
constraints (`max_length=STR_FIELD_MAX_LENGTH` on `name` and
`description`, trigger.py lines 107-116); the model has no cross-field
validator. -/
def validateTriggerUpdate (u : TriggerUpdate) :
    Except String TriggerUpdate :=
  if !optLenOk u.name then
    Except.error "name: ensure this value has at most 255 characters"
  else if !optLenOk u.description then
    Except.error "description: ensure this value has at most 255 characters"
  else
    Except.ok u

/-- A persisted trigger entity, with the attributes the request model
creates plus the `is_active` flag of the response body (trigger.py,
lines 160-162). -/
structure Trigger where
  name : String
  description : String
  action_id : Nat
  schedule : Option Schedule
  event_source_id : Option Nat
  event_filter : Option (List (String × String))
  is_active : Bool
deriving DecidableEq

/-- Modelled from the spec: the storage collaborator (not under `src/`)
applies a partial update by overwriting exactly those trigger attributes
for which the `TriggerUpdate` payload supplies a value; attributes absent
from the update model cannot change. -/
def applyTriggerUpdate (t : Trigger) (u : TriggerUpdate) : Trigger :=
  { t with
    name := u.name.getD t.name
    description := u.description.getD t.description
    event_filter :=
      match u.event_filter with
      | some f => some f
      | none => t.event_filter
    schedule :=
      match u.schedule with
      | some s => some s
      | none => t.schedule
    is_active := u.is_active.getD t.is_active }

/-- Modelled from the spec: `zenml.event_sources.base_event.BaseEvent` is
not under `src/`; the spec describes a canonical event as flavor tag,
source identity, arbitrary payload and timestamp. -/
structure BaseEvent where
  flavor : String := ""
  source_id : Nat := 0
  payload : List (String × String) := []
  timestamp : Nat := 0
deriving DecidableEq

/-- Embedding of `SchedulerEventFilterConfiguration`
(scheduler_event_source.py, lines 42-49): the filter configuration of the
internal scheduler flavor, holding a cron expression. -/
structure SchedulerEventFilterConfiguration where
  cron_expression : String
deriving DecidableEq

/-- Embedding of `SchedulerEventFilterConfiguration.event_matches_filter`
(scheduler_event_source.py, lines 47-49).  The Python method is
`return True`; as a method on mutable state it is embedded
state-passing, returning the boolean result together with the (unchanged)
configuration. -/
def SchedulerEventFilterConfiguration.event_matches_filter
    (cfg : SchedulerEventFilterConfiguration) (event : BaseEvent) :
    Bool × SchedulerEventFilterConfiguration :=
  (true, cfg)

/-- References to the classes of the scheduler plugin, standing in for the
Python class objects stored in `ClassVar` fields and returned by the
handler properties. -/
inductive ClassRef where
  | SchedulerEventSourceHandler
  | SchedulerEventSourceFlavor
  | SchedulerEventSourceConfiguration
  | SchedulerEventFilterConfiguration
deriving DecidableEq

/-- Embedding of `zenml.enums.PluginType` (the enums module is not under
`src/`; the spec gives the variants event-source and action). -/
inductive PluginType where
  | EVENT_SOURCE
  | ACTION
deriving DecidableEq

/-- Embedding of `zenml.enums.PluginSubType` (the enums module is not
under `src/`; the spec gives e.g. schedule and webhook). -/
inductive PluginSubType where
  | SCHEDULE
  | WEBHOOK
deriving DecidableEq

/-- Embedding of the class-level descriptor fields of `BasePluginFlavor`
(base_plugin_flavor.py, lines 65-71: `TYPE`, `SUBTYPE`, `FLAVOR`,
`PLUGIN_CLASS`) extended with the two configuration schema references
(`EVENT_SOURCE_CONFIG_CLASS`, `EVENT_FILTER_CONFIG_CLASS`) that the
event-source flavor base class declares (the spec's two configuration
schema definitions). -/
structure PluginFlavorDescriptor where
  TYPE : PluginType
  SUBTYPE : PluginSubType
  FLAVOR : String
  PLUGIN_CLASS : ClassRef
  EVENT_SOURCE_CONFIG_CLASS : ClassRef
  EVENT_FILTER_CONFIG_CLASS : ClassRef
deriving DecidableEq

/-- Embedding of `INTERNAL_SCHEDULER_EVENT_FLAVOR`
(scheduler_event_source.py, line 30). -/
def INTERNAL_SCHEDULER_EVENT_FLAVOR : String := "internal_scheduler"

/-- Embedding of `SchedulerEventSourceFlavor` (scheduler_event_source.py,
lines 93-107).  `TYPE` and `SUBTYPE` are inherited from
`BaseScheduleEventSourceFlavor`, which is not under `src/`: modelled from
the spec, an event-source flavor of subtype schedule. -/
def SchedulerEventSourceFlavor : PluginFlavorDescriptor where
  TYPE := PluginType.EVENT_SOURCE
  SUBTYPE := PluginSubType.SCHEDULE
  FLAVOR := INTERNAL_SCHEDULER_EVENT_FLAVOR
  PLUGIN_CLASS := ClassRef.SchedulerEventSourceHandler
  EVENT_SOURCE_CONFIG_CLASS := ClassRef.SchedulerEventSourceConfiguration
  EVENT_FILTER_CONFIG_CLASS := ClassRef.SchedulerEventFilterConfiguration

/-- The class-valued properties an event source handler exposes
(base_plugin_flavor.py `config_class`, and the scheduler handler's
`filter_class` and `flavor_class` properties). -/
structure EventSourceHandlerProperties where
  config_class : ClassRef
  filter_class : ClassRef
  flavor_class : ClassRef
deriving DecidableEq

/-- Embedding of `SchedulerEventSourceHandler` (scheduler_event_source.py,
lines 59-87): its three class-valued properties. -/
def SchedulerEventSourceHandler : EventSourceHandlerProperties where
  config_class := ClassRef.SchedulerEventSourceConfiguration
  filter_class := ClassRef.SchedulerEventFilterConfiguration
  flavor_class := ClassRef.SchedulerEventSourceFlavor

/-- A candidate trigger as the Dispatcher sees it: an identifier and a
filter predicate that may raise (modelled as `Except`). -/
structure DispatchTrigger where
  id : Nat
  filter : BaseEvent → Except String Bool

/-- Modelled from the spec: the Dispatcher (not under `src/`) evaluates
each candidate trigger's filter against the inbound event, catches a
filter-evaluation exception and treats it as a non-match for that trigger
only, and dispatches the matches in trigger order; the result lists the
ids of the triggers for which an execution is created. -/
def dispatchHandle (triggers : List DispatchTrigger) (event : BaseEvent) :
    List Nat :=
  triggers.filterMap fun t =>
    match t.filter event with
    | Except.ok true => some t.id
    | Except.ok false => none
    | Except.error _ => none

/-- C1: for every trigger creation payload whose string fields pass their
length constraints, validation succeeds exactly when exactly one of
`schedule` and `event_source_id` is set; when both or neither is set the
root validator raises a `ValueError` and validation fails. -/
theorem trigger_request_accept_iff_xor (r : TriggerRequest)
    (hn : r.name.length ≤ STR_FIELD_MAX_LENGTH)
    (hd : r.description.length ≤ STR_FIELD_MAX_LENGTH) :
    exceptOk (validateTriggerRequest r)
      = (r.schedule.isSome ^^ r.event_source_id.isSome) := by
  unfold validateTriggerRequest validate_schedule_or_event_source
  rw [if_neg (by omega), if_neg (by omega)]
  cases hs : r.schedule <;> cases he : r.event_source_id <;>
    simp [exceptOk]

/-- Witness for C1: a concrete payload with a schedule and no event source
is accepted. -/
theorem trigger_request_accept_iff_xor_witness :
    exceptOk (validateTriggerRequest
      { name := "nightly", action_id := 1,
        schedule := some { cron_expression := "0 0 * * *" } }) = true := by
  have h := trigger_request_accept_iff_xor
    { name := "nightly", action_id := 1,
      schedule := some { cron_expression := "0 0 * * *" } }
    (by decide) (by decide)
  simpa using h

/-- C3: the internal scheduler flavor's filter configuration matches every
event: `event_matches_filter` returns `True` for every configuration and
every event. -/
theorem scheduler_filter_always_matches
    (cfg : SchedulerEventFilterConfiguration) (event : BaseEvent) :
    (cfg.event_matches_filter event).fst = true := rfl

/-- C6: filter evaluation for the internal scheduler flavor is a pure
predicate: it leaves the configuration unchanged and returns the same
boolean on any two events (the predicate is constant). -/
theorem scheduler_filter_pure (cfg : SchedulerEventFilterConfiguration)
    (e1 e2 : BaseEvent) :
    (cfg.event_matches_filter e1).snd = cfg ∧
      (cfg.event_matches_filter e1).fst = (cfg.event_matches_filter e2).fst :=
  ⟨rfl, rfl⟩

/-- C8: the internal scheduler flavor descriptor carries a type, a subtype
and the documented references: `FLAVOR` is `internal_scheduler`,
`PLUGIN_CLASS` is `SchedulerEventSourceHandler`,
`EVENT_SOURCE_CONFIG_CLASS` is `SchedulerEventSourceConfiguration` and
`EVENT_FILTER_CONFIG_CLASS` is `SchedulerEventFilterConfiguration`. -/
theorem scheduler_flavor_descriptor :
    SchedulerEventSourceFlavor.FLAVOR = INTERNAL_SCHEDULER_EVENT_FLAVOR ∧
    SchedulerEventSourceFlavor.FLAVOR = "internal_scheduler" ∧
    SchedulerEventSourceFlavor.PLUGIN_CLASS
      = ClassRef.SchedulerEventSourceHandler ∧
    SchedulerEventSourceFlavor.EVENT_SOURCE_CONFIG_CLASS
      = ClassRef.SchedulerEventSourceConfiguration ∧
    SchedulerEventSourceFlavor.EVENT_FILTER_CONFIG_CLASS
      = ClassRef.SchedulerEventFilterConfiguration :=
  ⟨rfl, rfl, rfl, rfl, rfl⟩

/-- C9: handler and flavor of the internal scheduler cross-reference each
other, and the handler's `config_class` and `filter_class` coincide with
the flavor's `EVENT_SOURCE_CONFIG_CLASS` and
`EVENT_FILTER_CONFIG_CLASS`. -/
theorem scheduler_handler_flavor_round_trip :
    SchedulerEventSourceHandler.flavor_class
      = ClassRef.SchedulerEventSourceFlavor ∧
    SchedulerEventSourceFlavor.PLUGIN_CLASS
      = ClassRef.SchedulerEventSourceHandler ∧
    SchedulerEventSourceHandler.config_class
      = SchedulerEventSourceFlavor.EVENT_SOURCE_CONFIG_CLASS ∧
    SchedulerEventSourceHandler.filter_class
      = SchedulerEventSourceFlavor.EVENT_FILTER_CONFIG_CLASS :=
  ⟨rfl, rfl, rfl, rfl⟩

/-- Counterexample to C2: an update payload that sets both `schedule` and
`event_filter` passes `TriggerUpdate` validation — the update model
declares no cross-field validator, so the mutual exclusion is not
enforced on update. -/
theorem trigger_update_schedule_and_filter_accepted :
    exceptOk (validateTriggerUpdate
      { event_filter := some [("event_type", "push")],
        schedule := some { cron_expression := "0 0 * * *" } }) = true := by
  decide

/-- C2 as amended: `TriggerUpdate` validation is independent of the
`schedule` and `event_filter` fields; in particular a payload setting
both is accepted whenever its string fields pass their length bounds. -/
theorem trigger_update_validation_ignores_schedule_and_filter
    (u : TriggerUpdate) (s : Option Schedule)
    (f : Option (List (String × String))) :
    exceptOk (validateTriggerUpdate { u with schedule := s, event_filter := f })
      = exceptOk (validateTriggerUpdate u) := by
  unfold validateTriggerUpdate
  cases hn : optLenOk u.name <;> cases hd : optLenOk u.description <;>
    simp [exceptOk, hn, hd]

/-- Counterexample to C4: applying an update whose payload sets `name`
changes the trigger's name, so `name` is mutable through the update
model. -/
theorem apply_trigger_update_changes_name :
    (applyTriggerUpdate
        { name := "old", description := "", action_id := 1,
          schedule := some { cron_expression := "0 0 * * *" },
          event_source_id := none, event_filter := none, is_active := true }
        { name := some "new" }).name ≠ "old" := by
  decide

/-- C4 as amended: an update payload can modify `name`, `description`,
`event_filter`, `schedule` and `is_active` (the fields of
`TriggerUpdate`); the bound action (`action_id`) and the bound event
source (`event_source_id`) are left unchanged by every update. -/
theorem apply_trigger_update_frame (t : Trigger) (u : TriggerUpdate) :
    (applyTriggerUpdate t u).action_id = t.action_id ∧
      (applyTriggerUpdate t u).event_source_id = t.event_source_id :=
  ⟨rfl, rfl⟩

/-- Counterexample to C5: a creation payload that sets a schedule together
with an `event_filter` (and no `event_source_id`) is accepted — the root
validator never inspects `event_filter`, so such a payload does not fail
validation as the claim states. -/
theorem trigger_request_schedule_and_filter_accepted :
    exceptOk (validateTriggerRequest
      { name := "t", action_id := 1,
        schedule := some { cron_expression := "0 0 * * *" },
        event_filter := some [("event_type", "push")] }) = true := by
  decide

/-- C5 as amended: the accepted creation payloads are exactly those whose
`name` and `description` satisfy the length bounds and which set exactly
one of `schedule` and `event_source_id`; the `event_filter` field is not
constrained by validation at all. -/
theorem trigger_request_validation_characterization (r : TriggerRequest) :
    exceptOk (validateTriggerRequest r) = true ↔
      (r.name.length ≤ STR_FIELD_MAX_LENGTH ∧
       r.description.length ≤ STR_FIELD_MAX_LENGTH ∧
       r.schedule.isSome ≠ r.event_source_id.isSome) := by
  unfold validateTriggerRequest validate_schedule_or_event_source
  by_cases h1 : STR_FIELD_MAX_LENGTH < r.name.length
  · rw [if_pos h1]
    simp [exceptOk]
    omega
  · rw [if_neg h1]
    by_cases h2 : STR_FIELD_MAX_LENGTH < r.description.length
    · rw [if_pos h2]
      simp [exceptOk]
      omega
    · rw [if_neg h2]
      cases hs : r.schedule <;> cases he : r.event_source_id <;>
        simp [exceptOk] <;> omega

/-- C7: a filter-evaluation exception for one candidate trigger is
treated as a non-match for that trigger only: the dispatch result for the
whole candidate list equals the result with the failing trigger removed,
so every other candidate is still evaluated and dispatched. -/
theorem dispatch_filter_error_isolated (xs ys : List DispatchTrigger)
    (t : DispatchTrigger) (event : BaseEvent) (msg : String)
    (h : t.filter event = Except.error msg) :
    dispatchHandle (xs ++ t :: ys) event = dispatchHandle (xs ++ ys) event := by
  simp [dispatchHandle, List.filterMap_append, List.filterMap_cons, h]

/-- Witness for C7: with three concrete candidates of which the middle
one's filter raises, dispatch produces the same executions as without
it — the failing trigger does not prevent the others. -/
theorem dispatch_filter_error_isolated_witness :
    (DispatchTrigger.filter ⟨2, fun _ => Except.error "boom"⟩ {}
        = Except.error "boom") ∧
    dispatchHandle
        [⟨1, fun _ => Except.ok true⟩, ⟨2, fun _ => Except.error "boom"⟩,
          ⟨3, fun _ => Except.ok true⟩] {}
      = dispatchHandle
        [⟨1, fun _ => Except.ok true⟩, ⟨3, fun _ => Except.ok true⟩] {} :=
  ⟨rfl,
    dispatch_filter_error_isolated [⟨1, fun _ => Except.ok true⟩]
      [⟨3, fun _ => Except.ok true⟩] ⟨2, fun _ => Except.error "boom"⟩
      {} "boom" rfl⟩

/-- C10: creation and update payloads whose `name` or `description`
exceeds `STR_FIELD_MAX_LENGTH` are rejected by validation (so those
fields are accepted only within the length limit). -/
theorem trigger_string_fields_length_limited (r : TriggerRequest)
    (u : TriggerUpdate) (n d : String)
    (hr : STR_FIELD_MAX_LENGTH < r.name.length ∨
          STR_FIELD_MAX_LENGTH < r.description.length)
    (hu : (u.name = some n ∧ STR_FIELD_MAX_LENGTH < n.length) ∨
          (u.description = some d ∧ STR_FIELD_MAX_LENGTH < d.length)) :
    exceptOk (validateTriggerRequest r) = false ∧
      exceptOk (validateTriggerUpdate u) = false := by
  constructor
  · unfold validateTriggerRequest
    rcases hr with h | h
    · rw [if_pos h]
      rfl
    · by_cases h1 : STR_FIELD_MAX_LENGTH < r.name.length
      · rw [if_pos h1]
        rfl
      · rw [if_neg h1, if_pos h]
        rfl
  · unfold validateTriggerUpdate
    rcases hu with ⟨h1, h2⟩ | ⟨h1, h2⟩
    · have hf : optLenOk u.name = false := by
        rw [h1]
        simp [optLenOk]
        omega
      rw [hf]
      rfl
    · have hf : optLenOk u.description = false := by
        rw [h1]
        simp [optLenOk]
        omega
      cases hn : optLenOk u.name
      · rfl
      · rw [hf]
        rfl

set_option maxRecDepth 8192

/-- Witness for C10: a 256-character name is rejected on creation and on
update. -/
theorem trigger_string_fields_length_limited_witness :
    exceptOk (validateTriggerRequest
      { name := String.mk (List.replicate 256 'a'), action_id := 1,
        schedule := some { cron_expression := "0 0 * * *" } }) = false ∧
    exceptOk (validateTriggerUpdate
      { name := some (String.mk (List.replicate 256 'a')) }) = false :=
  trigger_string_fields_length_limited _ _
    (String.mk (List.replicate 256 'a')) "d"
    (Or.inl (by decide)) (Or.inl ⟨rfl, by decide⟩)
